import Mathlib

/-!
# Verification of the AFCON analysis and fuel-price trend scripts

Shallow embedding of the computational core of the two Python scripts
`afcon_analysis.py` and `fuel_price_prediction.py`.

Modelling conventions:
* Python `float` arithmetic is modelled by exact rational arithmetic (`ℚ`).
* Python `round(x, n)` (round to `n` decimal places) is modelled by `roundTo`,
  using Mathlib's `round : ℚ → ℤ`; the two agree except on exact decimal ties,
  where Python's float representation makes the direction of rounding
  unpredictable anyway.  No theorem below depends on the tie direction.
* The analyzer's `teams` dictionary (keyed by team name, insertion-ordered) is
  modelled as a `List TeamStats` with lookup by name (`getTeam`).
* Functions returning either a result dictionary or an `{"error": ...}`
  dictionary are modelled as `Except String _`.
-/

/-- The `TeamStats` dataclass of `afcon_analysis.py`. -/
structure TeamStats where
  name : String
  group : String
  fifa_rank : Int
  matches_played : Int
  wins : Int
  draws : Int
  losses : Int
  goals_for : Int
  goals_against : Int
  points : Int
deriving DecidableEq

/-- Python's `round(x, n)`: round `x` to `n` decimal places. -/
def roundTo (n : Nat) (x : ℚ) : ℚ :=
  ((round (x * (10 : ℚ) ^ n) : ℤ) : ℚ) / (10 : ℚ) ^ n

/-- `TeamStats.goal_difference`: `goals_for - goals_against`. -/
def TeamStats.goal_difference (t : TeamStats) : Int :=
  t.goals_for - t.goals_against

/-- `TeamStats.avg_goals_per_match`: `goals_for / matches_played` rounded to 2
decimals, `0` when no matches were played. -/
def TeamStats.avg_goals_per_match (t : TeamStats) : ℚ :=
  if t.matches_played = 0 then 0
  else roundTo 2 ((t.goals_for : ℚ) / (t.matches_played : ℚ))

/-- `TeamStats.win_percentage`: `wins / matches_played * 100` rounded to 2
decimals, `0` when no matches were played. -/
def TeamStats.win_percentage (t : TeamStats) : ℚ :=
  if t.matches_played = 0 then 0
  else roundTo 2 ((t.wins : ℚ) / (t.matches_played : ℚ) * 100)

/-- `TeamStats.defense_strength`: `goals_against / matches_played` rounded to 2
decimals, `0` when no matches were played (lower is better). -/
def TeamStats.defense_strength (t : TeamStats) : ℚ :=
  if t.matches_played = 0 then 0
  else roundTo 2 ((t.goals_against : ℚ) / (t.matches_played : ℚ))

/-- `AFCONAnalyzer.get_team`: lookup in the name-keyed team mapping
(`self.teams.get(name)`, `None` when absent). -/
def getTeam (teams : List TeamStats) (name : String) : Option TeamStats :=
  teams.find? (fun t => t.name == name)

/-- The error message returned by `compare_teams` and `predict_outcome` when a
lookup misses. -/
def notFoundMsg : String := "One or both teams not found"

/-- The comparison dictionary built by `AFCONAnalyzer.compare_teams`.  Each
per-team entry is stored in argument order (first component: `team1_name`'s
value, second: `team2_name`'s).  The source wraps `defensive_strength`,
`win_percentage` and `recent_form` in display strings (`f"... goals/match"`,
`f"...%"`, `f"... matches played"`); we keep the underlying numeric values,
the string wrappers being pure formatting. -/
structure Comparison where
  match_up : String
  fifa_ranks : Int × Int
  points : Int × Int
  goal_difference : Int × Int
  offensive_power : ℚ × ℚ
  defensive_strength : ℚ × ℚ
  win_percentage : ℚ × ℚ
  recent_form : Int × Int
deriving DecidableEq

/-- The comparison dictionary built once both lookups succeed, body of
`compare_teams` lines 81-112. -/
def comparePair (team1_name team2_name : String) (team1 team2 : TeamStats) :
    Comparison :=
  ⟨team1_name ++ " vs " ++ team2_name,
    (team1.fifa_rank, team2.fifa_rank),
    (team1.points, team2.points),
    (team1.goal_difference, team2.goal_difference),
    (team1.avg_goals_per_match, team2.avg_goals_per_match),
    (team1.defense_strength, team2.defense_strength),
    (team1.win_percentage, team2.win_percentage),
    (team1.matches_played, team2.matches_played)⟩

/-- `AFCONAnalyzer.compare_teams`: error when either lookup misses, otherwise
the comparison dictionary. -/
def compare_teams (teams : List TeamStats) (team1_name team2_name : String) :
    Except String Comparison :=
  match getTeam teams team1_name, getTeam teams team2_name with
  | some team1, some team2 =>
      Except.ok (comparePair team1_name team2_name team1 team2)
  | _, _ => Except.error notFoundMsg

/-- The composite score of `predict_outcome` (lines 151-161):
`(11 - fifa_rank) * 0.3 + avg_goals_per_match * 2 + (2 - defense_strength) * 1.5`. -/
def team_score (t : TeamStats) : ℚ :=
  ((11 : ℚ) - (t.fifa_rank : ℚ)) * (3 / 10) +
    t.avg_goals_per_match * 2 +
    ((2 : ℚ) - t.defense_strength) * (3 / 2)

/-- `team1_win_prob` of `predict_outcome` (line 164): score share of the summed
scores when the sum is positive, `50` otherwise. -/
def team1_win_prob (team1 team2 : TeamStats) : ℚ :=
  let total_score := team_score team1 + team_score team2
  if 0 < total_score then team_score team1 / total_score * 100 else 50

/-- The prediction dictionary returned by `predict_outcome`. -/
structure Prediction where
  matchup : String
  prediction : ℚ × ℚ
  estimated_goals : ℚ × ℚ
deriving DecidableEq

/-- The prediction dictionary built once both lookups succeed, body of
`predict_outcome` lines 150-177 (`team2_win_prob = 100 - team1_win_prob`, both
probabilities rounded to 1 decimal). -/
def predictPair (team1_name team2_name : String) (team1 team2 : TeamStats) :
    Prediction :=
  ⟨team1_name ++ " vs " ++ team2_name,
    (roundTo 1 (team1_win_prob team1 team2),
      roundTo 1 (100 - team1_win_prob team1 team2)),
    (roundTo 1 team1.avg_goals_per_match, roundTo 1 team2.avg_goals_per_match)⟩

/-- `AFCONAnalyzer.predict_outcome`: error when either lookup misses, otherwise
the prediction dictionary. -/
def predict_outcome (teams : List TeamStats) (team1_name team2_name : String) :
    Except String Prediction :=
  match getTeam teams team1_name, getTeam teams team2_name with
  | some team1, some team2 =>
      Except.ok (predictPair team1_name team2_name team1 team2)
  | _, _ => Except.error notFoundMsg

/-- The sort order of `analyze_group`: Python's stable `sorted` with key
`(points, goal_difference)` and `reverse=True`, i.e. descending lexicographic
order on `(points, goal_difference)`. -/
def standingOrder (a b : TeamStats) : Prop :=
  b.points < a.points ∨
    (a.points = b.points ∧ b.goal_difference ≤ a.goal_difference)

instance : DecidableRel standingOrder := fun a b =>
  show Decidable (b.points < a.points ∨
      (a.points = b.points ∧ b.goal_difference ≤ a.goal_difference)) from
    inferInstance

instance : IsTotal TeamStats standingOrder := by
  constructor
  intro a b
  unfold standingOrder
  omega

instance : IsTrans TeamStats standingOrder := by
  constructor
  intro a b c
  unfold standingOrder
  omega

/-- One row of the standings list built by `analyze_group` (lines 127-138).
The dict key `"matches"` is rendered as `matches_played` because `matches` is
a reserved word in Lean. -/
structure Standing where
  position : Nat
  team : String
  points : Int
  matches_played : Int
  wins : Int
  draws : Int
  losses : Int
  goals_for : Int
  goals_against : Int
  goal_difference : Int
deriving DecidableEq

/-- The standings row for `team` at 1-based `position`. -/
def mkStanding (position : Nat) (t : TeamStats) : Standing :=
  ⟨position, t.name, t.points, t.matches_played, t.wins, t.draws, t.losses,
    t.goals_for, t.goals_against, t.goal_difference⟩

/-- `for idx, team in enumerate(sorted_teams, 1)`: standings rows with 1-based
positions in list order. -/
def mkStandings : Nat → List TeamStats → List Standing
  | _, [] => []
  | idx, t :: ts => mkStanding idx t :: mkStandings (idx + 1) ts

/-- `AFCONAnalyzer.analyze_group`: filter to the group, stable-sort descending
by `(points, goal_difference)`, attach 1-based positions. -/
def analyze_group (teams : List TeamStats) (group : String) : List Standing :=
  mkStandings 1
    (List.insertionSort standingOrder (teams.filter (fun t => t.group == group)))

/-! ## Sample data from `main()` of `afcon_analysis.py` -/

/-- Ivory Coast record from `main()`. -/
def ivoryCoast : TeamStats := ⟨"Ivory Coast", "A", 9, 1, 1, 0, 0, 2, 0, 3⟩

/-- Mozambique record from `main()`. -/
def mozambique : TeamStats := ⟨"Mozambique", "A", 92, 0, 0, 0, 0, 0, 0, 0⟩

/-- Cameroon record from `main()`. -/
def cameroon : TeamStats := ⟨"Cameroon", "A", 43, 0, 0, 0, 0, 0, 0, 0⟩

/-- Gabon record from `main()`. -/
def gabon : TeamStats := ⟨"Gabon", "A", 75, 1, 0, 1, 0, 1, 1, 1⟩

/-- The analyzer's team mapping as built by `main()` (insertion order). -/
def demoTeams : List TeamStats := [ivoryCoast, mozambique, cameroon, gabon]

/-! ## Fuel-price trend pipeline (`fuel_price_prediction.py`) -/

/-- The month indices `np.arange(1, 13)` used as regression abscissae. -/
def month_numbers : List ℚ := [1, 2, 3, 4, 5, 6, 7, 8, 9, 10, 11, 12]

/-- Arithmetic mean of a list of rationals. -/
def listMean (l : List ℚ) : ℚ := l.sum / (l.length : ℚ)

/-- Slope, intercept and r-squared of a least-squares fit. -/
structure RegressionResult where
  slope : ℚ
  intercept : ℚ
  r_squared : ℚ
deriving DecidableEq

/-- Modelled from the spec: `scipy.stats.linregress` is a library routine whose
code is not part of this repository; spec §4.5 describes it as ordinary least
squares "using standard closed-form formulas (covariance/variance ratio for
slope; mean-based intercept)" with r-squared the squared correlation
coefficient, which is `Sxy² / (Sxx·Syy)` in terms of the centred sums. -/
def linregress (xs ys : List ℚ) : RegressionResult :=
  let xbar := listMean xs
  let ybar := listMean ys
  let sxx := (xs.map (fun x => (x - xbar) ^ 2)).sum
  let syy := (ys.map (fun y => (y - ybar) ^ 2)).sum
  let sxy := (List.zipWith (fun x y => (x - xbar) * (y - ybar)) xs ys).sum
  let slope := sxy / sxx
  ⟨slope, ybar - slope * xbar, sxy ^ 2 / (sxx * syy)⟩

/-- `future_predictions = slope * future_months + intercept` for
`future_months = np.array([13, 14, 15])` (lines 69-70). -/
def future_predictions (slope intercept : ℚ) : List ℚ :=
  [13, 14, 15].map (fun m => slope * m + intercept)

/-- Trend classification labels. -/
inductive Trend
  | UPWARD
  | DOWNWARD
  | STABLE
deriving DecidableEq

/-- The trend classifier of line 77:
`'UPWARD' if slope > 0.01 else ('DOWNWARD' if slope < -0.01 else 'STABLE')`. -/
def classify_trend (slope : ℚ) : Trend :=
  if slope > 1 / 100 then Trend.UPWARD
  else if slope < -(1 / 100) then Trend.DOWNWARD
  else Trend.STABLE

/-- The perfectly linear 12-point series `prices[m] = 10 + 0.5 * m` of the
spec's regression test property. -/
def linear_prices : List ℚ := month_numbers.map (fun m => 10 + (1 / 2) * m)

/-- The order required of adjacent standings rows: non-increasing points, and
non-increasing goal difference whenever points tie. -/
def standingRowOrder (a b : Standing) : Prop :=
  b.points ≤ a.points ∧ (a.points = b.points → b.goal_difference ≤ a.goal_difference)

/-! ## Helper lemmas -/

/-- Rounding to one decimal moves a rational by at most `1/20`. -/
theorem abs_roundTo_one_sub (x : ℚ) : |roundTo 1 x - x| ≤ 1 / 20 := by
  have h : |((round (x * 10 ^ 1) : ℤ) : ℚ) - x * 10 ^ 1| ≤ 1 / 2 := by
    rw [abs_sub_comm]
    exact abs_sub_round _
  have hrw : roundTo 1 x - x =
      (((round (x * 10 ^ 1) : ℤ) : ℚ) - x * 10 ^ 1) / 10 ^ 1 := by
    unfold roundTo
    ring
  rw [hrw, abs_div]
  have h10 : |(10 : ℚ) ^ 1| = 10 := by norm_num
  rw [h10]
  linarith

/-- `roundTo` is the identity on rationals that are exact `n`-decimal values. -/
theorem roundTo_exact (n : Nat) (x : ℚ) (k : ℤ) (h : x * 10 ^ n = (k : ℚ)) :
    roundTo n x = x := by
  unfold roundTo
  rw [h, round_intCast, ← h]
  field_simp

/-- `mkStandings` copies team names in order. -/
theorem mkStandings_map_team :
    ∀ (k : Nat) (l : List TeamStats),
      (mkStandings k l).map Standing.team = l.map TeamStats.name
  | _, [] => rfl
  | k, _ :: ts => by
      simp [mkStandings, mkStanding, mkStandings_map_team (k + 1) ts]

/-- Positions in `mkStandings k l` are `k, k+1, ...` in list order. -/
theorem mkStandings_get_position :
    ∀ (l : List TeamStats) (k i : Nat) (h : i < (mkStandings k l).length),
      ((mkStandings k l).get ⟨i, h⟩).position = k + i
  | [], _, i, h => absurd h (by simp [mkStandings])
  | _ :: ts, k, 0, _ => by simp [mkStandings, mkStanding]
  | _ :: ts, k, i + 1, h => by
      have := mkStandings_get_position ts (k + 1) i (by
        simpa [mkStandings] using Nat.lt_of_succ_lt_succ h)
      simp only [mkStandings, List.get]
      exact this.trans (by omega)


/-- `mkStandings` turns a chain of `standingOrder` into a chain of
`standingRowOrder` on the rows. -/
theorem mkStandings_chain' :
    ∀ (l : List TeamStats) (k : Nat), List.Chain' standingOrder l →
      List.Chain' standingRowOrder (mkStandings k l)
  | [], _, _ => List.chain'_nil
  | [_], k, _ => by simp [mkStandings]
  | t :: u :: ts, k, h => by
    rw [List.chain'_cons] at h
    show List.Chain' standingRowOrder
      (mkStanding k t :: mkStanding (k + 1) u :: mkStandings (k + 2) ts)
    rw [List.chain'_cons]
    refine ⟨?_, mkStandings_chain' (u :: ts) (k + 1) h.2⟩
    have h1 := h.1
    unfold standingOrder at h1
    unfold standingRowOrder mkStanding
    dsimp only
    omega

/-- Ivory Coast's average goals per match evaluates to `2`. -/
theorem ivory_avg : ivoryCoast.avg_goals_per_match = 2 := by
  unfold TeamStats.avg_goals_per_match ivoryCoast
  norm_num
  exact roundTo_exact 2 2 200 (by norm_num)

/-- Ivory Coast's defense strength evaluates to `0`. -/
theorem ivory_def : ivoryCoast.defense_strength = 0 := by
  unfold TeamStats.defense_strength ivoryCoast
  norm_num
  exact roundTo_exact 2 0 0 (by norm_num)

/-- Ivory Coast's win percentage evaluates to `100`. -/
theorem ivory_winpct : ivoryCoast.win_percentage = 100 := by
  unfold TeamStats.win_percentage ivoryCoast
  norm_num
  exact roundTo_exact 2 100 10000 (by norm_num)

/-- Ivory Coast's composite prediction score is `7.6`. -/
theorem ivory_score : team_score ivoryCoast = 38 / 5 := by
  unfold team_score
  rw [ivory_avg, ivory_def]
  show ((11 : ℚ) - ((9 : Int) : ℚ)) * (3 / 10) + 2 * 2 + ((2 : ℚ) - 0) * (3 / 2) = 38 / 5
  norm_num

/-- Mozambique's composite prediction score is `-21.3`. -/
theorem moz_score : team_score mozambique = -(213 / 10) := by
  unfold team_score TeamStats.avg_goals_per_match TeamStats.defense_strength mozambique
  norm_num

/-- The demo match-up falls into the 50/50 fallback branch: the summed
composite score is negative. -/
theorem demo_prob_fifty : team1_win_prob ivoryCoast mozambique = 50 := by
  unfold team1_win_prob
  rw [ivory_score, moz_score]
  norm_num

/-! ## Claim theorems -/

/-- C5: every team record with `matches_played = 0` has
`avg_goals_per_match = 0`, `win_percentage = 0` and `defense_strength = 0`
(the zero guard fires instead of dividing). -/
theorem zero_matches_zero_metrics (t : TeamStats) (h : t.matches_played = 0) :
    t.avg_goals_per_match = 0 ∧ t.win_percentage = 0 ∧ t.defense_strength = 0 := by
  unfold TeamStats.avg_goals_per_match TeamStats.win_percentage
    TeamStats.defense_strength
  rw [if_pos h, if_pos h, if_pos h]
  exact ⟨rfl, rfl, rfl⟩

/-- Witness for C5 at the Mozambique record, which has played no matches. -/
theorem zero_matches_zero_metrics_witness :
    mozambique.matches_played = 0 ∧
      (mozambique.avg_goals_per_match = 0 ∧ mozambique.win_percentage = 0 ∧
        mozambique.defense_strength = 0) :=
  ⟨by decide, zero_matches_zero_metrics mozambique (by decide)⟩

/-- C7: `compare_teams` and `predict_outcome` return the error indicator
(rather than raising) exactly when at least one of the two names is absent
from the team mapping. -/
theorem lookup_miss_iff_error (teams : List TeamStats) (n1 n2 : String) :
    ((∃ e, compare_teams teams n1 n2 = Except.error e) ↔
      (getTeam teams n1 = none ∨ getTeam teams n2 = none)) ∧
    ((∃ e, predict_outcome teams n1 n2 = Except.error e) ↔
      (getTeam teams n1 = none ∨ getTeam teams n2 = none)) := by
  rcases h1 : getTeam teams n1 with _ | t1 <;>
    rcases h2 : getTeam teams n2 with _ | t2 <;>
      simp [compare_teams, predict_outcome, h1, h2]

/-- Witness for C7: with an empty mapping both lookups miss and
`compare_teams` indeed reports the error. -/
theorem lookup_miss_iff_error_witness :
    ∃ e, compare_teams [] "Ivory Coast" "Gabon" = Except.error e :=
  (lookup_miss_iff_error [] "Ivory Coast" "Gabon").1.mpr (Or.inl rfl)

/-- C9: the classified trend is `UPWARD` exactly when the slope exceeds
`0.01`, `DOWNWARD` exactly when it is below `-0.01`, and `STABLE` exactly on
the closed interval in between. -/
theorem classify_trend_thresholds (slope : ℚ) :
    (classify_trend slope = Trend.UPWARD ↔ 1 / 100 < slope) ∧
    (classify_trend slope = Trend.DOWNWARD ↔ slope < -(1 / 100)) ∧
    (classify_trend slope = Trend.STABLE ↔
      (-(1 / 100) ≤ slope ∧ slope ≤ 1 / 100)) := by
  unfold classify_trend
  split_ifs with h1 h2 <;>
    refine ⟨?_, ?_, ?_⟩ <;> simp_all <;> try linarith

/-- Witness for C9 at slope `1`. -/
theorem classify_trend_thresholds_witness : classify_trend 1 = Trend.UPWARD :=
  (classify_trend_thresholds 1).1.mpr (by norm_num)

/-- C6: for two names present in the mapping, `compare_teams (A, B)` and
`compare_teams (B, A)` succeed and carry identical per-team information with
the two labels swapped, field by field. -/
theorem compare_teams_swap (teams : List TeamStats) (n1 n2 : String)
    (t1 t2 : TeamStats) (h1 : getTeam teams n1 = some t1)
    (h2 : getTeam teams n2 = some t2) :
    ∃ c1 c2 : Comparison,
      compare_teams teams n1 n2 = Except.ok c1 ∧
      compare_teams teams n2 n1 = Except.ok c2 ∧
      c1.fifa_ranks = Prod.swap c2.fifa_ranks ∧
      c1.points = Prod.swap c2.points ∧
      c1.goal_difference = Prod.swap c2.goal_difference ∧
      c1.offensive_power = Prod.swap c2.offensive_power ∧
      c1.defensive_strength = Prod.swap c2.defensive_strength ∧
      c1.win_percentage = Prod.swap c2.win_percentage ∧
      c1.recent_form = Prod.swap c2.recent_form := by
  refine ⟨comparePair n1 n2 t1 t2, comparePair n2 n1 t2 t1, ?_, ?_,
    rfl, rfl, rfl, rfl, rfl, rfl, rfl⟩
  · simp [compare_teams, h1, h2]
  · simp [compare_teams, h1, h2]

/-- Witness for C6 at the Ivory Coast / Gabon pair of the demo data. -/
theorem compare_teams_swap_witness :
    getTeam demoTeams "Ivory Coast" = some ivoryCoast ∧
    getTeam demoTeams "Gabon" = some gabon ∧
    ∃ c1 c2 : Comparison,
      compare_teams demoTeams "Ivory Coast" "Gabon" = Except.ok c1 ∧
      compare_teams demoTeams "Gabon" "Ivory Coast" = Except.ok c2 ∧
      c1.fifa_ranks = Prod.swap c2.fifa_ranks ∧
      c1.points = Prod.swap c2.points ∧
      c1.goal_difference = Prod.swap c2.goal_difference ∧
      c1.offensive_power = Prod.swap c2.offensive_power ∧
      c1.defensive_strength = Prod.swap c2.defensive_strength ∧
      c1.win_percentage = Prod.swap c2.win_percentage ∧
      c1.recent_form = Prod.swap c2.recent_form :=
  ⟨by decide, by decide,
    compare_teams_swap demoTeams "Ivory Coast" "Gabon" ivoryCoast gabon
      (by decide) (by decide)⟩

/-- C1: for two names present in the mapping, the two returned win
probabilities (each rounded to 1 decimal) sum to `100` within `0.1`. -/
theorem predict_outcome_prob_sum_100 (teams : List TeamStats) (n1 n2 : String)
    (t1 t2 : TeamStats) (h1 : getTeam teams n1 = some t1)
    (h2 : getTeam teams n2 = some t2) :
    ∃ p : Prediction, predict_outcome teams n1 n2 = Except.ok p ∧
      |p.prediction.1 + p.prediction.2 - 100| ≤ 1 / 10 := by
  refine ⟨predictPair n1 n2 t1 t2, by simp [predict_outcome, h1, h2], ?_⟩
  show |roundTo 1 (team1_win_prob t1 t2) +
      roundTo 1 (100 - team1_win_prob t1 t2) - 100| ≤ 1 / 10
  have a1 := abs_roundTo_one_sub (team1_win_prob t1 t2)
  have a2 := abs_roundTo_one_sub (100 - team1_win_prob t1 t2)
  have hsplit : roundTo 1 (team1_win_prob t1 t2) +
      roundTo 1 (100 - team1_win_prob t1 t2) - 100 =
      (roundTo 1 (team1_win_prob t1 t2) - team1_win_prob t1 t2) +
        (roundTo 1 (100 - team1_win_prob t1 t2) -
          (100 - team1_win_prob t1 t2)) := by ring
  rw [hsplit]
  calc |(roundTo 1 (team1_win_prob t1 t2) - team1_win_prob t1 t2) +
        (roundTo 1 (100 - team1_win_prob t1 t2) -
          (100 - team1_win_prob t1 t2))| ≤
      |roundTo 1 (team1_win_prob t1 t2) - team1_win_prob t1 t2| +
        |roundTo 1 (100 - team1_win_prob t1 t2) -
          (100 - team1_win_prob t1 t2)| := abs_add _ _
    _ ≤ 1 / 10 := by linarith

/-- Witness for C1 at the Cameroon / Gabon pair of the demo data. -/
theorem predict_outcome_prob_sum_100_witness :
    getTeam demoTeams "Cameroon" = some cameroon ∧
    getTeam demoTeams "Gabon" = some gabon ∧
    ∃ p : Prediction,
      predict_outcome demoTeams "Cameroon" "Gabon" = Except.ok p ∧
      |p.prediction.1 + p.prediction.2 - 100| ≤ 1 / 10 :=
  ⟨by decide, by decide,
    predict_outcome_prob_sum_100 demoTeams "Cameroon" "Gabon" cameroon gabon
      (by decide) (by decide)⟩

/-- C3: for two names present in the mapping, `predict_outcome` computes each
composite score as `(11 - rank) * 0.3 + avg_goals_per_match * 2 +
(2 - defense_strength) * 1.5`; the first team's win probability is its score
share times `100` when the summed score is positive and exactly `50`
otherwise, and the returned first percentage is that probability rounded to 1
decimal. -/
theorem predict_outcome_formula_spec (teams : List TeamStats) (n1 n2 : String)
    (t1 t2 : TeamStats) (h1 : getTeam teams n1 = some t1)
    (h2 : getTeam teams n2 = some t2) :
    predict_outcome teams n1 n2 = Except.ok (predictPair n1 n2 t1 t2) ∧
    team_score t1 = ((11 : ℚ) - (t1.fifa_rank : ℚ)) * (3 / 10) +
      t1.avg_goals_per_match * 2 + ((2 : ℚ) - t1.defense_strength) * (3 / 2) ∧
    team_score t2 = ((11 : ℚ) - (t2.fifa_rank : ℚ)) * (3 / 10) +
      t2.avg_goals_per_match * 2 + ((2 : ℚ) - t2.defense_strength) * (3 / 2) ∧
    (0 < team_score t1 + team_score t2 →
      team1_win_prob t1 t2 =
        team_score t1 / (team_score t1 + team_score t2) * 100) ∧
    (team_score t1 + team_score t2 ≤ 0 → team1_win_prob t1 t2 = 50) ∧
    (predictPair n1 n2 t1 t2).prediction.1 = roundTo 1 (team1_win_prob t1 t2) := by
  refine ⟨by simp [predict_outcome, h1, h2], rfl, rfl, ?_, ?_, rfl⟩
  · intro hpos
    unfold team1_win_prob
    rw [if_pos hpos]
  · intro hle
    unfold team1_win_prob
    rw [if_neg (not_lt.mpr hle)]

/-- Witness for C3 at the Gabon / Cameroon pair of the demo data. -/
theorem predict_outcome_formula_spec_witness :
    getTeam demoTeams "Gabon" = some gabon ∧
    getTeam demoTeams "Cameroon" = some cameroon ∧
    predict_outcome demoTeams "Gabon" "Cameroon" =
      Except.ok (predictPair "Gabon" "Cameroon" gabon cameroon) :=
  ⟨by decide, by decide,
    (predict_outcome_formula_spec demoTeams "Gabon" "Cameroon" gabon cameroon
      (by decide) (by decide)).1⟩

/-- C4: `analyze_group` returns exactly the teams of the requested group,
positions are `1`-based in list order, and adjacent rows are ordered by
non-increasing points with non-increasing goal difference on point ties. -/
theorem analyze_group_spec (teams : List TeamStats) (group : String) :
    ((analyze_group teams group).map Standing.team).Perm
      ((teams.filter (fun t => t.group == group)).map TeamStats.name) ∧
    (∀ i (h : i < (analyze_group teams group).length),
      ((analyze_group teams group).get ⟨i, h⟩).position = i + 1) ∧
    List.Chain' standingRowOrder (analyze_group teams group) := by
  refine ⟨?_, ?_, ?_⟩
  · unfold analyze_group
    rw [mkStandings_map_team]
    exact (List.perm_insertionSort standingOrder _).map TeamStats.name
  · intro i h
    unfold analyze_group at h ⊢
    rw [mkStandings_get_position _ 1 i h]
    omega
  · unfold analyze_group
    exact mkStandings_chain' _ 1
      (List.sorted_insertionSort standingOrder _).chain'

/-- Witness for C4: in the demo data's group A standings the first row holds
position 1. -/
theorem analyze_group_spec_witness :
    0 < (analyze_group demoTeams "A").length ∧
    ((analyze_group demoTeams "A").get ⟨0, by decide⟩).position = 0 + 1 :=
  ⟨by decide, (analyze_group_spec demoTeams "A").2.1 0 (by decide)⟩

/-- Rounding `50` to one decimal is exact. -/
theorem roundTo_one_fifty : roundTo 1 50 = 50 :=
  roundTo_exact 1 50 500 (by norm_num)

/-- C2 counterexample: on the spec's example pair the returned win probability
of the first team is exactly `50`, not strictly greater than `50` — the summed
composite score is negative, so the 50/50 fallback fires. -/
theorem example_matchup_cex :
    ¬ ∃ p : Prediction,
        predict_outcome demoTeams "Ivory Coast" "Mozambique" = Except.ok p ∧
          50 < p.prediction.1 := by
  rintro ⟨p, hp, hgt⟩
  have hg1 : getTeam demoTeams "Ivory Coast" = some ivoryCoast := by decide
  have hg2 : getTeam demoTeams "Mozambique" = some mozambique := by decide
  have he : predict_outcome demoTeams "Ivory Coast" "Mozambique" =
      Except.ok (predictPair "Ivory Coast" "Mozambique" ivoryCoast mozambique) := by
    simp [predict_outcome, hg1, hg2]
  rw [he] at hp
  have hpp := Except.ok.inj hp
  rw [← hpp] at hgt
  have h1 : (predictPair "Ivory Coast" "Mozambique" ivoryCoast
      mozambique).prediction.1 = 50 := by
    show roundTo 1 (team1_win_prob ivoryCoast mozambique) = 50
    rw [demo_prob_fifty, roundTo_one_fifty]
  rw [h1] at hgt
  exact lt_irrefl 50 hgt

/-- C2 (amended): on the example pair the comparison reports goal differences
`2` and `0` and win percentages `100%` and `0%`, and `predict_outcome` assigns
the first team a win probability of exactly `50%` (the 50/50 fallback, since
the summed composite score is negative). -/
theorem example_matchup_amended :
    ∃ c : Comparison,
      compare_teams demoTeams "Ivory Coast" "Mozambique" = Except.ok c ∧
      c.goal_difference = (2, 0) ∧ c.win_percentage = (100, 0) ∧
      ∃ p : Prediction,
        predict_outcome demoTeams "Ivory Coast" "Mozambique" = Except.ok p ∧
        p.prediction.1 = 50 ∧ p.prediction.2 = 50 := by
  have hg1 : getTeam demoTeams "Ivory Coast" = some ivoryCoast := by decide
  have hg2 : getTeam demoTeams "Mozambique" = some mozambique := by decide
  refine ⟨comparePair "Ivory Coast" "Mozambique" ivoryCoast mozambique,
    by simp [compare_teams, hg1, hg2], by decide, ?_,
    predictPair "Ivory Coast" "Mozambique" ivoryCoast mozambique,
    by simp [predict_outcome, hg1, hg2], ?_, ?_⟩
  · show (ivoryCoast.win_percentage, mozambique.win_percentage) = (100, 0)
    rw [ivory_winpct]
    rfl
  · show roundTo 1 (team1_win_prob ivoryCoast mozambique) = 50
    rw [demo_prob_fifty, roundTo_one_fifty]
  · show roundTo 1 (100 - team1_win_prob ivoryCoast mozambique) = 50
    rw [demo_prob_fifty]
    norm_num
    exact roundTo_one_fifty

/-- A weak team whose composite score is negative: rank 100, no matches. -/
def outsider : TeamStats := ⟨"Outsider", "X", 100, 0, 0, 0, 0, 0, 0, 0⟩

/-- A strong team whose composite score dominates: rank 1, one 10-0 win. -/
def favourite : TeamStats := ⟨"Favourite", "X", 1, 1, 1, 0, 0, 10, 0, 3⟩

/-- The outsider's composite score is `-23.7`. -/
theorem outsider_score : team_score outsider = -(237 / 10) := by
  unfold team_score TeamStats.avg_goals_per_match TeamStats.defense_strength
    outsider
  norm_num

/-- The favourite's average goals per match evaluates to `10`. -/
theorem favourite_avg : favourite.avg_goals_per_match = 10 := by
  unfold TeamStats.avg_goals_per_match favourite
  norm_num
  exact roundTo_exact 2 10 1000 (by norm_num)

/-- The favourite's defense strength evaluates to `0`. -/
theorem favourite_def : favourite.defense_strength = 0 := by
  unfold TeamStats.defense_strength favourite
  norm_num
  exact roundTo_exact 2 0 0 (by norm_num)

/-- The favourite's composite score is `26`. -/
theorem favourite_score : team_score favourite = 26 := by
  unfold team_score
  rw [favourite_avg, favourite_def]
  show ((11 : ℚ) - ((1 : Int) : ℚ)) * (3 / 10) + 10 * 2 + ((2 : ℚ) - 0) * (3 / 2) = 26
  norm_num

/-- Against the favourite, the outsider's computed win probability is
`-23700/23 ≈ -1030.4`. -/
theorem outsider_prob : team1_win_prob outsider favourite = -(23700 / 23) := by
  unfold team1_win_prob
  rw [outsider_score, favourite_score]
  rw [if_pos (by norm_num : (0 : ℚ) < -(237 / 10) + 26)]
  norm_num

/-- C10: there are two teams, both present in the mapping, for which
`predict_outcome` returns a win probability strictly below `0` for one and
strictly above `100` for the other. -/
theorem predict_prob_out_of_range :
    getTeam [outsider, favourite] "Outsider" = some outsider ∧
    getTeam [outsider, favourite] "Favourite" = some favourite ∧
    ∃ p : Prediction,
      predict_outcome [outsider, favourite] "Outsider" "Favourite" =
        Except.ok p ∧
      p.prediction.1 < 0 ∧ 100 < p.prediction.2 := by
  have hg1 : getTeam [outsider, favourite] "Outsider" = some outsider := by
    decide
  have hg2 : getTeam [outsider, favourite] "Favourite" = some favourite := by
    decide
  refine ⟨hg1, hg2, predictPair "Outsider" "Favourite" outsider favourite,
    by simp [predict_outcome, hg1, hg2], ?_, ?_⟩
  · show roundTo 1 (team1_win_prob outsider favourite) < 0
    rw [outsider_prob]
    have h := abs_roundTo_one_sub (-(23700 / 23))
    rw [abs_le] at h
    linarith
  · show 100 < roundTo 1 (100 - team1_win_prob outsider favourite)
    rw [outsider_prob]
    have h := abs_roundTo_one_sub (100 - -(23700 / 23))
    rw [abs_le] at h
    linarith

/-- C8: on the perfectly linear series `prices[m] = 10 + 0.5 * m`, the
least-squares fit gives slope `0.5`, intercept `10` and r-squared `1`
(exactly, in rational arithmetic), and the extrapolations at indices 13, 14,
15 equal `slope * index + intercept`. -/
theorem linear_series_fit_exact :
    (linregress month_numbers linear_prices).slope = 1 / 2 ∧
    (linregress month_numbers linear_prices).intercept = 10 ∧
    (linregress month_numbers linear_prices).r_squared = 1 ∧
    future_predictions (linregress month_numbers linear_prices).slope
        (linregress month_numbers linear_prices).intercept =
      [(1 / 2) * 13 + 10, (1 / 2) * 14 + 10, (1 / 2) * 15 + 10] := by
  have h : linregress month_numbers linear_prices =
      RegressionResult.mk (1 / 2) 10 1 := by
    unfold linregress listMean linear_prices month_numbers
    norm_num [List.sum_cons, List.sum_nil]
  rw [h]
  refine ⟨rfl, rfl, rfl, ?_⟩
  unfold future_predictions
  norm_num
